import Mathlib

/-!
Shallow embedding of `src/biometrics/stream/biometric_processor.py`
(class `BiometricProcessor`) and proofs of the specification claims.

Modelling conventions:
* Python floats are modelled as exact rationals (`ℚ`).  The single source of
  genuine irrationality, the square root inside `np.std`, is passed in as an
  opaque parameter `sq : ℚ → ℚ` (numpy's floating-point square root is a
  black box for this development; the code stores `np.std(...) * 2`, which we
  model as `sq (variance) * 2`).
* A possible float NaN only matters for `measurement['bpm']` (checked by
  `is_valid` via `np.isnan`), so the raw DSP output carries a `bpm_nan` flag.
* The DSP chain (`interpolate_outliers_in_wave`, `scale_data`,
  `remove_baseline_wander`, `filter_signal`, `heart.heartpy.process`) is an
  external black box (spec §1): its outcome for one signal and one epoch is an
  input of type `DspResult` — either the stage raised an exception (`.exn`)
  or it returned raw numbers (`.ok`).
* Python exceptions are explicit: functions that can let an exception escape
  return `… × Option PyExn`, and state mutations performed before the raise
  are kept (Python mutates `self` in place).  In particular line 262 of the
  source, `datetime.utcfromtimestamp(...)`, raises `AttributeError` because
  the module is imported as `import datetime` (line 21) and the module object
  has no attribute `utcfromtimestamp`; the debug branch of `next` therefore
  raises before appending anything to `debug_measurements`.
* `deque(maxlen = n)` is a list (oldest first) with `dequeAppend` dropping
  from the left on overflow.
* The sink `insert_vitals` (module `db`) is modelled by accumulating the
  records handed to it in the ghost field `inserted`.
-/

/-- Measurement record (TypedDict from `data_types`): side, epoch timestamp,
heart rate (BPM), HRV (ms) and breathing rate (breaths/min). -/
structure Measurement where
  side : String
  timestamp : ℤ
  heart_rate : ℚ
  hrv : ℚ
  breathing_rate : ℚ
deriving DecidableEq, Repr

/-- Raw numbers produced by the black-box beat-extraction stage
(`heart.heartpy.process`): `bpm` (with a flag for float NaN, the only NaN the
code inspects), `sdnn` and `breathingrate`. -/
structure RawMeasurement where
  bpm_nan : Bool
  bpm : ℚ
  sdnn : ℚ
  breathingrate : ℚ
deriving DecidableEq, Repr

/-- Outcome of running the DSP chain on one signal for one epoch: the
black-box stage either raised an exception or returned raw numbers. -/
inductive DspResult where
  | exn : DspResult
  | ok : RawMeasurement → DspResult
deriving DecidableEq, Repr

/-- Python exceptions that can escape the modelled code: the
`AttributeError` raised by `datetime.utcfromtimestamp` on line 262, and a
generic exception from the DSP stage (raised inside `_calculate_vitals`,
always caught by `calculate_vitals`). -/
inductive PyExn where
  | attributeError : PyExn
  | dspException : PyExn
deriving DecidableEq, Repr

/-- Runtime parameter dictionary (`vitals.run_data_types.RuntimeParams`). -/
structure RuntimeParams where
  window : ℚ
  slide_by : ℚ
  moving_avg_size : ℕ
  hr_std_range : ℚ × ℚ
  hr_percentile : ℚ × ℚ
  signal_percentile : ℚ × ℚ
  window_size : ℚ
deriving DecidableEq, Repr

/-- Default runtime parameters built in `__init__` when `runtime_params` is
`None` (source lines 64-73); `0.2 = 1/5`, `99.8 = 499/5`, `0.65 = 13/20`. -/
def defaultRuntimeParams : RuntimeParams :=
  { window := 3
    slide_by := 1
    moving_avg_size := 120
    hr_std_range := (1, 10)
    hr_percentile := (15, 80)
    signal_percentile := (1/5, 499/5)
    window_size := 13/20 }

/-- Sum of a list of rationals divided by its length: `np.mean`.  (`np.mean`
of an empty array is float NaN; the model returns the junk value `0` there,
and no theorem below relies on the empty case.) -/
def npMean (l : List ℚ) : ℚ := l.sum / (l.length : ℚ)

/-- Population variance, `np.var`: mean of squared deviations from the mean.
`np.std l = sqrt (npVariance l)`. -/
def npVariance (l : List ℚ) : ℚ := npMean (l.map (fun x => (x - npMean l) ^ 2))

/-- Insert a rational into a sorted list, keeping it sorted. -/
def insertSorted (x : ℚ) : List ℚ → List ℚ
  | [] => [x]
  | y :: ys => if x ≤ y then x :: y :: ys else y :: insertSorted x ys

/-- Ascending insertion sort, modelling `np.sort` (the values of a sorted
permutation of a list of rationals are unique, so the algorithm used by
numpy is irrelevant). -/
def sortQ (l : List ℚ) : List ℚ := l.foldr insertSorted []

/-- Linear-interpolation percentile, `np.percentile(l, q)` with the default
interpolation: with sorted values `s` of length `n`, the virtual index is
`h = (n-1) * q / 100` and the result interpolates between `s[⌊h⌋]` and the
next element. -/
def npPercentile (l : List ℚ) (q : ℚ) : ℚ :=
  match sortQ l with
  | [] => 0
  | y :: ys =>
    let s := y :: ys
    let n := s.length
    let h : ℚ := ((n : ℚ) - 1) * q / 100
    let i : ℕ := (⌊h⌋).toNat
    let lo := s.getD i 0
    let hi := s.getD (min (i + 1) (n - 1)) 0
    lo + (h - (i : ℚ)) * (hi - lo)

/-- Peak-to-peak range `np.ptp`: maximum minus minimum.  (`np.ptp` of an
empty array raises; the model returns `0` for `[]`, a case no caller in the
source exercises and no theorem relies on.) -/
def npPtp : List ℚ → ℚ
  | [] => 0
  | x :: xs => xs.foldl max x - xs.foldl min x

/-- Append to a `deque(maxlen = maxlen)` held oldest-first: elements are
dropped from the left when the capacity is exceeded. -/
def dequeAppend {α : Type} (maxlen : ℕ) (xs : List α) (x : α) : List α :=
  let ys := xs ++ [x]
  ys.drop (ys.length - maxlen)

/-- Python slice `l[-k:]` for `k = rolling_average_size` (source line 255,
`list(self.heart_rates)[self.rolling_average_size * -1:]`): the last `k`
elements, except that `k = 0` gives `l[0:] = l`. -/
def lastSlice (k : ℕ) (l : List ℚ) : List ℚ :=
  if k = 0 then l else l.drop (l.length - k)

/-- Clamp a value into a closed range given as a pair, exactly as source
lines 288-291 clamp `hr_std_2` into `hr_std_range`. -/
def clampToRange (r : ℚ × ℚ) (x : ℚ) : ℚ :=
  if x < r.1 then r.1 else if r.2 < x then r.2 else x

/-- State of one `BiometricProcessor` instance (one body side).  The ghost
field `inserted` records, in order, every record handed to the external sink
`insert_vitals`. -/
structure BiometricProcessor where
  present : Bool
  side : String
  sensor_count : ℕ
  insertion_frequency : ℕ
  iteration_count : ℕ
  rolling_average_size : ℕ
  debug : Bool
  slide_by : ℚ
  window : ℚ
  hr_std_range : ℚ × ℚ
  hr_percentile : ℚ × ℚ
  moving_avg_size : ℕ
  signal_percentile : ℚ × ℚ
  window_size : ℚ
  no_presence_tolerance : ℕ
  not_present_for : ℕ
  heart_rates : List ℚ
  lower_bound : Option ℚ
  upper_bound : Option ℚ
  hr_moving_avg : Option ℚ
  hr_std_2 : Option ℚ
  combined_measurements : List Measurement
  debug_measurements : List Measurement
  epoch : ℤ
  inserted : List Measurement
deriving DecidableEq, Repr

/-- Constructor `BiometricProcessor.__init__` (source lines 48-87).  Python
defaults: `side='left'`, `sensor_count=1`, `insertion_frequency=60`,
`rolling_average_size=25`, `debug=False`, `runtime_params=None`.  `epoch` is
not initialised by the Python constructor (it is first assigned inside
`calculate_vitals`); the model initialises it to `0`. -/
def mkBiometricProcessor (side : String) (sensor_count : ℕ)
    (runtime_params : Option RuntimeParams) (insertion_frequency : ℕ)
    (rolling_average_size : ℕ) (debug : Bool) : BiometricProcessor :=
  let rp := runtime_params.getD defaultRuntimeParams
  { present := false
    side := side
    sensor_count := sensor_count
    insertion_frequency := insertion_frequency
    iteration_count := 0
    rolling_average_size := rolling_average_size
    debug := debug
    slide_by := rp.slide_by
    window := rp.window
    hr_std_range := rp.hr_std_range
    hr_percentile := rp.hr_percentile
    moving_avg_size := rp.moving_avg_size
    signal_percentile := rp.signal_percentile
    window_size := rp.window_size
    no_presence_tolerance := 10
    not_present_for := 0
    heart_rates := []
    lower_bound := none
    upper_bound := none
    hr_moving_avg := none
    hr_std_2 := none
    combined_measurements := []
    debug_measurements := []
    epoch := 0
    inserted := [] }

namespace BiometricProcessor

/-- Method `init_tracking` (source lines 89-95): empty the heart-rate
history and unset the four running statistics. -/
def init_tracking (s : BiometricProcessor) : BiometricProcessor :=
  { s with heart_rates := []
           lower_bound := none
           upper_bound := none
           hr_moving_avg := none
           hr_std_2 := none }

/-- Method `reset` (source lines 97-99): zero the iteration counter and
reinitialise the tracking state. -/
def reset (s : BiometricProcessor) : BiometricProcessor :=
  init_tracking { s with iteration_count := 0 }

/-- Method `detect_presence` (source lines 101-111). -/
def detect_presence (s : BiometricProcessor) (signal : List ℚ) : BiometricProcessor :=
  if 200000 < npPtp signal then
    { s with not_present_for := 0, present := true }
  else
    let s1 := { s with not_present_for := s.not_present_for + 1 }
    if s1.not_present_for = s1.no_presence_tolerance then
      reset { s1 with present := false }
    else s1

/-- Method `is_valid` (source lines 238-249). -/
def is_valid (s : BiometricProcessor) (m : RawMeasurement) : Bool :=
  if m.bpm_nan then false
  else if 90 < m.bpm then false
  else
    match s.lower_bound, s.upper_bound with
    | some lb, some ub => decide (lb < m.bpm ∧ m.bpm < ub)
    | _, _ => true

/-- Method `_calculate_vitals` (source lines 113-158) after the black-box
DSP chain: if the chain raised, the exception propagates out of this method;
otherwise validate the raw numbers, clamp HRV to 0 outside [30, 120] and the
breathing rate (raw rate × 60) to 0 outside [8, 25], and build the record
(or return `None` when invalid). -/
def calcVitalsSingle (s : BiometricProcessor) (r : DspResult) (epoch : ℤ) :
    Except PyExn (Option Measurement) :=
  match r with
  | .exn => .error .dspException
  | .ok raw =>
    .ok (if s.is_valid raw then
      some { side := s.side
             timestamp := epoch
             heart_rate := raw.bpm
             hrv := if raw.sdnn < 30 ∨ 120 < raw.sdnn then 0 else raw.sdnn
             breathing_rate :=
               if raw.breathingrate * 60 < 8 ∨ 25 < raw.breathingrate * 60 then 0
               else raw.breathingrate * 60 }
    else none)

/-- The `try`/`except Exception: pass` wrapper around `_calculate_vitals`
(source lines 164-169 and 172-177): any exception becomes `None`. -/
def tryExtract (s : BiometricProcessor) (r : DspResult) (epoch : ℤ) :
    Option Measurement :=
  match s.calcVitalsSingle r epoch with
  | .error _ => none
  | .ok m => m

/-- Extraction for the optional second signal (`if signal2 is not None`,
source line 171): an absent signal yields no measurement. -/
def tryExtractOpt (s : BiometricProcessor) (r2 : Option DspResult) (epoch : ℤ) :
    Option Measurement :=
  match r2 with
  | none => none
  | some r => s.tryExtract r epoch

/-- The clamp applied to a candidate heart rate against the moving average
and the std band, repeated verbatim at source lines 187-191, 207-211 and
226-230: when a moving average exists and the candidate is more than
`hr_std_2` away from it, move it to the nearer edge of the band.  (When
`hr_moving_avg` is set, the source reads `hr_std_2` unconditionally; the two
fields are only ever set together — see the C2 invariant — so the model
treats a set average with an unset band as the unclamped case, a state the
code never reaches.) -/
def clampHR (avg : Option ℚ) (std2 : Option ℚ) (hr : ℚ) : ℚ :=
  match avg, std2 with
  | some a, some d => if d < |hr - a| then (if hr < a then a - d else a + d) else hr
  | _, _ => hr

/-- Sensor-fusion block of `calculate_vitals` (source lines 179-235):
combine the per-signal measurements, clamp the fused heart rate, append it
to the history and the fused record to `combined_measurements`. -/
def fuseStep (s : BiometricProcessor) (m1 m2 : Option Measurement) :
    BiometricProcessor :=
  match m1, m2 with
  | some a, some b =>
    let c :=
      match s.hr_moving_avg with
      | some avg => ((a.heart_rate + b.heart_rate) / 2 + avg) / 2
      | none => (a.heart_rate + b.heart_rate) / 2
    let hr := clampHR s.hr_moving_avg s.hr_std_2 c
    { s with heart_rates := dequeAppend s.moving_avg_size s.heart_rates hr
             combined_measurements :=
               dequeAppend 100 s.combined_measurements
                 { side := s.side
                   timestamp := s.epoch
                   heart_rate := hr
                   hrv := (a.hrv + b.hrv) / 2
                   breathing_rate := a.breathing_rate + b.breathing_rate } }
  | some a, none =>
    let hr := clampHR s.hr_moving_avg s.hr_std_2 a.heart_rate
    { s with heart_rates := dequeAppend s.moving_avg_size s.heart_rates hr
             combined_measurements :=
               dequeAppend 100 s.combined_measurements { a with heart_rate := hr } }
  | none, some b =>
    let c :=
      match s.hr_moving_avg with
      | some avg => (b.heart_rate + avg) / 2
      | none => b.heart_rate
    let hr := clampHR s.hr_moving_avg s.hr_std_2 c
    { s with heart_rates := dequeAppend s.moving_avg_size s.heart_rates hr
             combined_measurements :=
               dequeAppend 100 s.combined_measurements { b with heart_rate := hr } }
  | none, none => s

/-- Insertion block of `next` (source lines 254-275), run after the
iteration counter has been incremented.  In the non-debug branch the most
recent combined measurement has its heart rate overwritten by the smoothed
value and is handed to `insert_vitals`.  In the debug branch the call
`datetime.utcfromtimestamp(...)` on line 262 raises `AttributeError`
(the module `datetime` has no such attribute), so nothing is appended to
`debug_measurements` and the exception propagates. -/
def insertPhase (s : BiometricProcessor) : BiometricProcessor × Option PyExn :=
  if s.iteration_count % s.insertion_frequency = 0 then
    match s.combined_measurements.getLast? with
    | none => (s, none)
    | some last =>
      let heart_rate := npMean (lastSlice s.rolling_average_size s.heart_rates)
      if s.debug then
        (s, some .attributeError)
      else
        let rec0 := { last with heart_rate := heart_rate }
        ({ s with combined_measurements := s.combined_measurements.dropLast ++ [rec0]
                  inserted := s.inserted ++ [rec0] }, none)
  else (s, none)

/-- Statistics block of `next` (source lines 277-291): once the history is
full, recompute the moving average, the percentile bounds (widened
symmetrically to a minimum width of 25 when narrower) and the clamped
2-standard-deviation band.  `sq` is numpy's square root (see the header). -/
def recomputeStats (sq : ℚ → ℚ) (s : BiometricProcessor) : BiometricProcessor :=
  if s.moving_avg_size ≤ s.heart_rates.length then
    let avg := npMean s.heart_rates
    let lb := npPercentile s.heart_rates s.hr_percentile.1
    let ub := npPercentile s.heart_rates s.hr_percentile.2
    let bounds := if ub - lb < 25 then (avg - 25/2, avg + 25/2) else (lb, ub)
    let std2 := clampToRange s.hr_std_range (sq (npVariance s.heart_rates) * 2)
    { s with hr_moving_avg := some avg
             lower_bound := some bounds.1
             upper_bound := some bounds.2
             hr_std_2 := some std2 }
  else s

/-- Method `next` (source lines 251-291): increment the iteration counter,
run the insertion block, and — unless the insertion block raised — recompute
the running statistics. -/
def next (s : BiometricProcessor) (sq : ℚ → ℚ) : BiometricProcessor × Option PyExn :=
  let s1 := { s with iteration_count := s.iteration_count + 1 }
  match (insertPhase s1).2 with
  | some e => ((insertPhase s1).1, some e)
  | none => (recomputeStats sq (insertPhase s1).1, none)

/-- Method `calculate_vitals` (source lines 160-236): store the epoch,
extract a measurement per supplied signal (exceptions from the DSP stage are
swallowed per signal), fuse, then advance the epoch via `next`. -/
def calculate_vitals (s : BiometricProcessor) (sq : ℚ → ℚ) (epoch : ℤ)
    (r1 : DspResult) (r2 : Option DspResult) : BiometricProcessor × Option PyExn :=
  let t := { s with epoch := epoch }
  next (fuseStep t (t.tryExtract r1 epoch) (t.tryExtractOpt r2 epoch)) sq

end BiometricProcessor

open BiometricProcessor

/-- Fields of the processor state that `fuseStep` never modifies. -/
lemma fuseStep_frame (s : BiometricProcessor) (m1 m2 : Option Measurement) :
    (fuseStep s m1 m2).present = s.present ∧
    (fuseStep s m1 m2).not_present_for = s.not_present_for ∧
    (fuseStep s m1 m2).iteration_count = s.iteration_count ∧
    (fuseStep s m1 m2).debug = s.debug ∧
    (fuseStep s m1 m2).moving_avg_size = s.moving_avg_size ∧
    (fuseStep s m1 m2).insertion_frequency = s.insertion_frequency ∧
    (fuseStep s m1 m2).rolling_average_size = s.rolling_average_size ∧
    (fuseStep s m1 m2).hr_std_range = s.hr_std_range ∧
    (fuseStep s m1 m2).hr_percentile = s.hr_percentile ∧
    (fuseStep s m1 m2).lower_bound = s.lower_bound ∧
    (fuseStep s m1 m2).upper_bound = s.upper_bound ∧
    (fuseStep s m1 m2).hr_moving_avg = s.hr_moving_avg ∧
    (fuseStep s m1 m2).hr_std_2 = s.hr_std_2 ∧
    (fuseStep s m1 m2).inserted = s.inserted ∧
    (fuseStep s m1 m2).debug_measurements = s.debug_measurements ∧
    (fuseStep s m1 m2).epoch = s.epoch ∧
    (fuseStep s m1 m2).no_presence_tolerance = s.no_presence_tolerance ∧
    (fuseStep s m1 m2).side = s.side := by
  cases m1 <;> cases m2 <;>
    exact ⟨rfl, rfl, rfl, rfl, rfl, rfl, rfl, rfl, rfl, rfl, rfl, rfl, rfl, rfl, rfl,
      rfl, rfl, rfl⟩

/-- Either `fuseStep` leaves the state unchanged (no measurement), or it
appends a clamped candidate heart rate to the history together with a fused
record carrying exactly that heart rate. -/
lemma fuseStep_shape (s : BiometricProcessor) (m1 m2 : Option Measurement) :
    fuseStep s m1 m2 = s ∨
    ∃ c rec, rec.heart_rate = clampHR s.hr_moving_avg s.hr_std_2 c ∧
      fuseStep s m1 m2 =
        { s with heart_rates := dequeAppend s.moving_avg_size s.heart_rates
                   (clampHR s.hr_moving_avg s.hr_std_2 c)
                 combined_measurements :=
                   dequeAppend 100 s.combined_measurements rec } := by
  cases m1 with
  | none =>
    cases m2 with
    | none => exact Or.inl rfl
    | some b =>
      refine Or.inr ⟨(match s.hr_moving_avg with
        | some avg => (b.heart_rate + avg) / 2
        | none => b.heart_rate), _, rfl, rfl⟩
  | some a =>
    cases m2 with
    | none => exact Or.inr ⟨a.heart_rate, _, rfl, rfl⟩
    | some b =>
      refine Or.inr ⟨(match s.hr_moving_avg with
        | some avg => ((a.heart_rate + b.heart_rate) / 2 + avg) / 2
        | none => (a.heart_rate + b.heart_rate) / 2), _, rfl, rfl⟩

/-- When the moving average and the std band exist, the clamp always lands
inside the band (provided the band is nonnegative). -/
lemma clampHR_mem_band (a d c : ℚ) (hd : 0 ≤ d) :
    a - d ≤ clampHR (some a) (some d) c ∧ clampHR (some a) (some d) c ≤ a + d := by
  show a - d ≤ (if d < |c - a| then (if c < a then a - d else a + d) else c) ∧
    (if d < |c - a| then (if c < a then a - d else a + d) else c) ≤ a + d
  by_cases h : d < |c - a|
  · rw [if_pos h]
    by_cases h2 : c < a
    · rw [if_pos h2]; constructor <;> linarith
    · rw [if_neg h2]; constructor <;> linarith
  · rw [if_neg h]
    have h3 := abs_le.mp (not_lt.mp h)
    constructor <;> linarith [h3.1, h3.2]


/-- Fields of the processor state that `insertPhase` never modifies. -/
lemma insertPhase_frame (s : BiometricProcessor) :
    (insertPhase s).1.heart_rates = s.heart_rates ∧
    (insertPhase s).1.hr_moving_avg = s.hr_moving_avg ∧
    (insertPhase s).1.lower_bound = s.lower_bound ∧
    (insertPhase s).1.upper_bound = s.upper_bound ∧
    (insertPhase s).1.hr_std_2 = s.hr_std_2 ∧
    (insertPhase s).1.debug = s.debug ∧
    (insertPhase s).1.moving_avg_size = s.moving_avg_size ∧
    (insertPhase s).1.iteration_count = s.iteration_count ∧
    (insertPhase s).1.present = s.present ∧
    (insertPhase s).1.not_present_for = s.not_present_for ∧
    (insertPhase s).1.insertion_frequency = s.insertion_frequency ∧
    (insertPhase s).1.rolling_average_size = s.rolling_average_size ∧
    (insertPhase s).1.hr_std_range = s.hr_std_range ∧
    (insertPhase s).1.hr_percentile = s.hr_percentile ∧
    (insertPhase s).1.no_presence_tolerance = s.no_presence_tolerance ∧
    (insertPhase s).1.debug_measurements = s.debug_measurements ∧
    (insertPhase s).1.epoch = s.epoch ∧
    (insertPhase s).1.side = s.side := by
  unfold insertPhase
  split
  · split
    · exact ⟨rfl, rfl, rfl, rfl, rfl, rfl, rfl, rfl, rfl, rfl, rfl, rfl, rfl, rfl, rfl,
        rfl, rfl, rfl⟩
    · split
      · exact ⟨rfl, rfl, rfl, rfl, rfl, rfl, rfl, rfl, rfl, rfl, rfl, rfl, rfl, rfl, rfl,
          rfl, rfl, rfl⟩
      · exact ⟨rfl, rfl, rfl, rfl, rfl, rfl, rfl, rfl, rfl, rfl, rfl, rfl, rfl, rfl, rfl,
          rfl, rfl, rfl⟩
  · exact ⟨rfl, rfl, rfl, rfl, rfl, rfl, rfl, rfl, rfl, rfl, rfl, rfl, rfl, rfl, rfl,
      rfl, rfl, rfl⟩

/-- The insertion block can only raise the `AttributeError` of the debug
branch; in particular no DSP exception can originate there. -/
lemma insertPhase_snd (s : BiometricProcessor) :
    (insertPhase s).2 = none ∨ (insertPhase s).2 = some PyExn.attributeError := by
  unfold insertPhase
  split
  · split
    · exact Or.inl rfl
    · split
      · exact Or.inr rfl
      · exact Or.inl rfl
  · exact Or.inl rfl

/-- Outside debug mode the insertion block never raises. -/
lemma insertPhase_snd_of_not_debug (s : BiometricProcessor) (hd : s.debug = false) :
    (insertPhase s).2 = none := by
  unfold insertPhase
  split
  · split
    · rfl
    · split
      · simp_all
      · rfl
  · rfl

/-- Fields of the processor state that `recomputeStats` never modifies. -/
lemma recomputeStats_frame (sq : ℚ → ℚ) (s : BiometricProcessor) :
    (recomputeStats sq s).heart_rates = s.heart_rates ∧
    (recomputeStats sq s).combined_measurements = s.combined_measurements ∧
    (recomputeStats sq s).inserted = s.inserted ∧
    (recomputeStats sq s).iteration_count = s.iteration_count ∧
    (recomputeStats sq s).debug = s.debug ∧
    (recomputeStats sq s).moving_avg_size = s.moving_avg_size ∧
    (recomputeStats sq s).present = s.present ∧
    (recomputeStats sq s).not_present_for = s.not_present_for ∧
    (recomputeStats sq s).insertion_frequency = s.insertion_frequency ∧
    (recomputeStats sq s).rolling_average_size = s.rolling_average_size ∧
    (recomputeStats sq s).hr_std_range = s.hr_std_range ∧
    (recomputeStats sq s).hr_percentile = s.hr_percentile ∧
    (recomputeStats sq s).no_presence_tolerance = s.no_presence_tolerance ∧
    (recomputeStats sq s).debug_measurements = s.debug_measurements ∧
    (recomputeStats sq s).epoch = s.epoch ∧
    (recomputeStats sq s).side = s.side := by
  unfold recomputeStats
  split
  · exact ⟨rfl, rfl, rfl, rfl, rfl, rfl, rfl, rfl, rfl, rfl, rfl, rfl, rfl, rfl, rfl, rfl⟩
  · exact ⟨rfl, rfl, rfl, rfl, rfl, rfl, rfl, rfl, rfl, rfl, rfl, rfl, rfl, rfl, rfl, rfl⟩

/-- When the history is not full, `recomputeStats` is the identity. -/
lemma recomputeStats_not_full (sq : ℚ → ℚ) (s : BiometricProcessor)
    (h : ¬ s.moving_avg_size ≤ s.heart_rates.length) : recomputeStats sq s = s := by
  unfold recomputeStats
  rw [if_neg h]

/-- When the history is full, `recomputeStats` stores the mean, the widened
percentile bounds and the clamped doubled standard deviation. -/
lemma recomputeStats_full (sq : ℚ → ℚ) (s : BiometricProcessor)
    (h : s.moving_avg_size ≤ s.heart_rates.length) :
    (recomputeStats sq s).hr_moving_avg = some (npMean s.heart_rates) ∧
    (recomputeStats sq s).hr_std_2 =
      some (clampToRange s.hr_std_range (sq (npVariance s.heart_rates) * 2)) ∧
    ((recomputeStats sq s).lower_bound, (recomputeStats sq s).upper_bound) =
      (if npPercentile s.heart_rates s.hr_percentile.2
            - npPercentile s.heart_rates s.hr_percentile.1 < 25 then
        (some (npMean s.heart_rates - 25/2), some (npMean s.heart_rates + 25/2))
      else
        (some (npPercentile s.heart_rates s.hr_percentile.1),
         some (npPercentile s.heart_rates s.hr_percentile.2))) := by
  unfold recomputeStats
  rw [if_pos h]
  dsimp only
  by_cases hb : npPercentile s.heart_rates s.hr_percentile.2
      - npPercentile s.heart_rates s.hr_percentile.1 < 25
  · simp [hb]
  · simp [hb]

/-- Advancing the epoch never touches the heart-rate history. -/
lemma next_fst_heart_rates (s : BiometricProcessor) (sq : ℚ → ℚ) :
    (next s sq).1.heart_rates = s.heart_rates := by
  unfold next
  dsimp only
  cases h2 : (insertPhase { s with iteration_count := s.iteration_count + 1 }).2 with
  | none =>
    exact ((recomputeStats_frame sq _).1).trans
      ((insertPhase_frame { s with iteration_count := s.iteration_count + 1 }).1)
  | some e =>
    exact (insertPhase_frame { s with iteration_count := s.iteration_count + 1 }).1

/-- C7: `is_valid` returns false on a NaN BPM and on a BPM above 90; when
both plausibility bounds are set it accepts exactly the BPM values strictly
inside the band (so a BPM equal to either bound is rejected); when no bound
is set every non-NaN BPM at most 90 is accepted. -/
theorem is_valid_characterisation (s : BiometricProcessor) (m : RawMeasurement) :
    s.is_valid m = true ↔
      (m.bpm_nan = false ∧ m.bpm ≤ 90 ∧
        ∀ lb ub, s.lower_bound = some lb → s.upper_bound = some ub →
          lb < m.bpm ∧ m.bpm < ub) := by
  unfold BiometricProcessor.is_valid
  cases hn : m.bpm_nan
  case true => simp
  case false =>
    by_cases h90 : 90 < m.bpm
    case pos =>
      have : ¬ m.bpm ≤ 90 := not_le.mpr h90
      simp [h90, this]
    case neg =>
      have h90le : m.bpm ≤ 90 := not_lt.mp h90
      cases hl : s.lower_bound with
      | none =>
        simp [h90, h90le]
      | some lb =>
        cases hu : s.upper_bound with
        | none => simp [h90, h90le]
        | some ub =>
          simp only [Bool.false_eq_true, if_false, if_neg h90, decide_eq_true_eq]
          constructor
          · rintro ⟨hlt1, hlt2⟩
            refine ⟨trivial, h90le, fun lb2 ub2 hlb hub => ?_⟩
            cases hlb
            cases hub
            exact ⟨hlt1, hlt2⟩
          · rintro ⟨-, -, hall⟩
            exact hall lb ub rfl rfl

/-- C5: with two valid measurements, the candidate heart rate before clamping
is the average of the two BPMs, further averaged with the moving average when
one exists; the recorded fused measurement carries the plain average of the
two HRV values but the SUM of the two breathing rates, and is appended along
with the clamped heart rate. -/
theorem two_signal_fusion_formulas (s : BiometricProcessor) (a b : Measurement) :
    ∃ c m, c = (match s.hr_moving_avg with
                | some avg => ((a.heart_rate + b.heart_rate) / 2 + avg) / 2
                | none => (a.heart_rate + b.heart_rate) / 2) ∧
      m.heart_rate = clampHR s.hr_moving_avg s.hr_std_2 c ∧
      m.hrv = (a.hrv + b.hrv) / 2 ∧
      m.breathing_rate = a.breathing_rate + b.breathing_rate ∧
      m.side = s.side ∧ m.timestamp = s.epoch ∧
      fuseStep s (some a) (some b) =
        { s with heart_rates := dequeAppend s.moving_avg_size s.heart_rates m.heart_rate
                 combined_measurements := dequeAppend 100 s.combined_measurements m } := by
  refine ⟨(match s.hr_moving_avg with
           | some avg => ((a.heart_rate + b.heart_rate) / 2 + avg) / 2
           | none => (a.heart_rate + b.heart_rate) / 2),
    { side := s.side
      timestamp := s.epoch
      heart_rate := clampHR s.hr_moving_avg s.hr_std_2 (match s.hr_moving_avg with
        | some avg => ((a.heart_rate + b.heart_rate) / 2 + avg) / 2
        | none => (a.heart_rate + b.heart_rate) / 2)
      hrv := (a.hrv + b.hrv) / 2
      breathing_rate := a.breathing_rate + b.breathing_rate },
    rfl, rfl, rfl, rfl, rfl, rfl, ?_⟩
  rfl

/-- C6: with exactly one valid measurement, the signal-1-only path clamps
the signal's own BPM directly (no averaging with the moving average), while
the signal-2-only path first averages the BPM with the moving average when
one exists; with no moving average both paths record the signal's own BPM
unchanged. -/
theorem single_signal_fusion_asymmetry (s : BiometricProcessor) (a b : Measurement) :
    (fuseStep s (some a) none =
      { s with heart_rates := dequeAppend s.moving_avg_size s.heart_rates
                 (clampHR s.hr_moving_avg s.hr_std_2 a.heart_rate)
               combined_measurements := dequeAppend 100 s.combined_measurements
                 { a with heart_rate := clampHR s.hr_moving_avg s.hr_std_2 a.heart_rate } }) ∧
    (∃ c, c = (match s.hr_moving_avg with
               | some avg => (b.heart_rate + avg) / 2
               | none => b.heart_rate) ∧
      fuseStep s none (some b) =
        { s with heart_rates := dequeAppend s.moving_avg_size s.heart_rates
                   (clampHR s.hr_moving_avg s.hr_std_2 c)
                 combined_measurements := dequeAppend 100 s.combined_measurements
                   { b with heart_rate := clampHR s.hr_moving_avg s.hr_std_2 c } }) ∧
    (s.hr_moving_avg = none →
      fuseStep s (some a) none =
        { s with heart_rates := dequeAppend s.moving_avg_size s.heart_rates a.heart_rate
                 combined_measurements := dequeAppend 100 s.combined_measurements a } ∧
      fuseStep s none (some b) =
        { s with heart_rates := dequeAppend s.moving_avg_size s.heart_rates b.heart_rate
                 combined_measurements := dequeAppend 100 s.combined_measurements b }) := by
  refine ⟨rfl, ⟨_, rfl, rfl⟩, fun hnone => ?_⟩
  constructor
  · simp only [fuseStep, clampHR, hnone]
  · simp only [fuseStep, clampHR, hnone]

/-- When the moving average and a nonnegative std band exist, `fuseStep`
either changes nothing or appends a heart rate inside the band, recorded
verbatim in the appended fused measurement. -/
lemma fuseStep_band (t : BiometricProcessor) (m1 m2 : Option Measurement)
    (avg std2 : ℚ) (h1 : t.hr_moving_avg = some avg) (h2 : t.hr_std_2 = some std2)
    (h0 : 0 ≤ std2) :
    ((fuseStep t m1 m2).heart_rates = t.heart_rates ∧
      (fuseStep t m1 m2).combined_measurements = t.combined_measurements) ∨
    ∃ h m, avg - std2 ≤ h ∧ h ≤ avg + std2 ∧ m.heart_rate = h ∧
      (fuseStep t m1 m2).heart_rates = dequeAppend t.moving_avg_size t.heart_rates h ∧
      (fuseStep t m1 m2).combined_measurements =
        dequeAppend 100 t.combined_measurements m := by
  rcases fuseStep_shape t m1 m2 with hid | ⟨c, m, hm, heq⟩
  · left
    rw [hid]
    exact ⟨rfl, rfl⟩
  · right
    rw [h1, h2] at hm heq
    refine ⟨clampHR (some avg) (some std2) c, m,
      (clampHR_mem_band avg std2 c h0).1, (clampHR_mem_band avg std2 c h0).2, hm, ?_, ?_⟩
    · rw [heq]
    · rw [heq]

/-- C1: whenever the moving average and the (nonnegative) std band are both
set, any heart rate appended to the history by `calculate_vitals` lies in
the band `[hr_moving_avg - hr_std_2, hr_moving_avg + hr_std_2]`, and the
fused record appended to `combined_measurements` at that moment carries
exactly that clamped heart rate; `next` never changes the history, so it is
also the history of the post-state of `calculate_vitals`. -/
theorem clamped_heart_rate_within_band (sq : ℚ → ℚ) (s : BiometricProcessor)
    (e : ℤ) (r1 : DspResult) (r2 : Option DspResult) (avg std2 : ℚ)
    (mid : BiometricProcessor)
    (h1 : s.hr_moving_avg = some avg) (h2 : s.hr_std_2 = some std2)
    (h0 : 0 ≤ std2)
    (hmid : mid = fuseStep { s with epoch := e }
      (BiometricProcessor.tryExtract { s with epoch := e } r1 e)
      (BiometricProcessor.tryExtractOpt { s with epoch := e } r2 e)) :
    (s.calculate_vitals sq e r1 r2).1.heart_rates = mid.heart_rates ∧
    (mid.heart_rates = s.heart_rates ∨
      ∃ h m, avg - std2 ≤ h ∧ h ≤ avg + std2 ∧ m.heart_rate = h ∧
        mid.heart_rates = dequeAppend s.moving_avg_size s.heart_rates h ∧
        mid.combined_measurements = dequeAppend 100 s.combined_measurements m) := by
  subst hmid
  constructor
  · exact next_fst_heart_rates _ sq
  · rcases fuseStep_band { s with epoch := e }
        (BiometricProcessor.tryExtract { s with epoch := e } r1 e)
        (BiometricProcessor.tryExtractOpt { s with epoch := e } r2 e) avg std2 h1 h2 h0 with
      ⟨ha, hb⟩ | ⟨h, m, hb1, hb2, hb3, hb4, hb5⟩
    · exact Or.inl ha
    · exact Or.inr ⟨h, m, hb1, hb2, hb3, hb4, hb5⟩

/-- Opaque stand-in for numpy's floating square root used in concrete runs;
the concrete runs below never reach the statistics recomputation with a full
history, so its value is irrelevant. -/
def sqZero : ℚ → ℚ := fun _ => 0

/-- A raw DSP output of 70 BPM, not NaN. -/
def rawSeventy : RawMeasurement :=
  { bpm_nan := false, bpm := 70, sdnn := 0, breathingrate := 0 }

/-- A processor state with a moving average of 60 BPM and a std band of 2. -/
def procBand : BiometricProcessor :=
  { mkBiometricProcessor "left" 1 none 60 25 false with
      hr_moving_avg := some 60
      hr_std_2 := some 2
      lower_bound := some 50
      upper_bound := some 80 }

/-- Fusion-stage state of the C1 witness run. -/
def midBand : BiometricProcessor :=
  fuseStep { procBand with epoch := 5 }
    (BiometricProcessor.tryExtract { procBand with epoch := 5 } (DspResult.ok rawSeventy) 5)
    (BiometricProcessor.tryExtractOpt { procBand with epoch := 5 } none 5)

/-- Witness for C1: a concrete call with moving average 60 and band 2. -/
theorem clamped_heart_rate_within_band_witness :
    (procBand.calculate_vitals sqZero 5 (DspResult.ok rawSeventy) none).1.heart_rates =
      midBand.heart_rates ∧
    (midBand.heart_rates = procBand.heart_rates ∨
      ∃ h m, 60 - 2 ≤ h ∧ h ≤ 60 + 2 ∧ m.heart_rate = h ∧
        midBand.heart_rates = dequeAppend procBand.moving_avg_size procBand.heart_rates h ∧
        midBand.combined_measurements =
          dequeAppend 100 procBand.combined_measurements m) :=
  clamped_heart_rate_within_band sqZero procBand 5 (DspResult.ok rawSeventy) none 60 2
    midBand rfl rfl (by norm_num) rfl

/-- The epoch-advance step can only let the debug-branch `AttributeError`
escape. -/
lemma next_snd (t : BiometricProcessor) (sq : ℚ → ℚ) :
    (next t sq).2 = none ∨ (next t sq).2 = some PyExn.attributeError := by
  unfold next
  dsimp only
  cases h2 : (insertPhase { t with iteration_count := t.iteration_count + 1 }).2 with
  | none => exact Or.inl rfl
  | some ex =>
    rcases insertPhase_snd { t with iteration_count := t.iteration_count + 1 } with hn | ha
    · cases hn.symm.trans h2
    · right
      cases ha.symm.trans h2
      rfl

/-- C8: an exception inside the DSP extraction of one signal is converted
into a missing measurement for that signal only: a failing second signal is
indistinguishable from an absent one, a failing first signal leaves the
second signal's extraction and fusion untouched (the fusion runs with no
first measurement), and the only exception that can ever escape
`calculate_vitals` is the debug-branch `AttributeError` — never a DSP
exception. -/
theorem dsp_exception_isolation (sq : ℚ → ℚ) (s : BiometricProcessor) (e : ℤ)
    (r1 r2 : DspResult) :
    (s.calculate_vitals sq e r1 (some DspResult.exn) = s.calculate_vitals sq e r1 none) ∧
    (BiometricProcessor.tryExtract { s with epoch := e } DspResult.exn e = none) ∧
    (s.calculate_vitals sq e DspResult.exn (some r2) =
      next (fuseStep { s with epoch := e } none
        (BiometricProcessor.tryExtract { s with epoch := e } r2 e)) sq) ∧
    ((s.calculate_vitals sq e r1 (some r2)).2 = none ∨
      (s.calculate_vitals sq e r1 (some r2)).2 = some PyExn.attributeError) := by
  refine ⟨rfl, rfl, rfl, ?_⟩
  exact next_snd _ sq

/-- Changing only the presence fields does not change what the per-signal
extraction produces. -/
lemma tryExtract_presence (s : BiometricProcessor) (p : Bool) (n : ℕ)
    (r : DspResult) (e : ℤ) :
    BiometricProcessor.tryExtract { s with present := p, not_present_for := n } r e =
      BiometricProcessor.tryExtract s r e := by
  cases r <;> rfl

/-- Changing only the presence fields does not change the optional-signal
extraction. -/
lemma tryExtractOpt_presence (s : BiometricProcessor) (p : Bool) (n : ℕ)
    (r2 : Option DspResult) (e : ℤ) :
    BiometricProcessor.tryExtractOpt { s with present := p, not_present_for := n } r2 e =
      BiometricProcessor.tryExtractOpt s r2 e := by
  cases r2 with
  | none => rfl
  | some r => exact tryExtract_presence s p n r e

/-- The fusion step commutes with overwriting the presence fields. -/
lemma fuseStep_presence (s : BiometricProcessor) (p : Bool) (n : ℕ)
    (m1 m2 : Option Measurement) :
    fuseStep { s with present := p, not_present_for := n } m1 m2 =
      { fuseStep s m1 m2 with present := p, not_present_for := n } := by
  cases m1 <;> cases m2 <;> rfl

/-- The insertion block commutes with overwriting the presence fields. -/
lemma insertPhase_presence (s : BiometricProcessor) (p : Bool) (n : ℕ) :
    insertPhase { s with present := p, not_present_for := n } =
      ({ (insertPhase s).1 with present := p, not_present_for := n },
        (insertPhase s).2) := by
  unfold insertPhase
  dsimp only
  by_cases h1 : s.iteration_count % s.insertion_frequency = 0
  · simp only [if_pos h1]
    cases hL : s.combined_measurements.getLast? with
    | none => rfl
    | some last =>
      cases hdbg : s.debug with
      | true => simp [hdbg]
      | false => simp [hdbg]
  · simp only [if_neg h1]

/-- The statistics recomputation commutes with overwriting the presence
fields. -/
lemma recomputeStats_presence (sq : ℚ → ℚ) (s : BiometricProcessor) (p : Bool) (n : ℕ) :
    recomputeStats sq { s with present := p, not_present_for := n } =
      { recomputeStats sq s with present := p, not_present_for := n } := by
  unfold recomputeStats
  dsimp only
  by_cases h : s.moving_avg_size ≤ s.heart_rates.length
  · simp only [if_pos h]
  · simp only [if_neg h]

/-- The epoch-advance step commutes with overwriting the presence fields. -/
lemma next_presence (s : BiometricProcessor) (p : Bool) (n : ℕ) (sq : ℚ → ℚ) :
    next { s with present := p, not_present_for := n } sq =
      ({ (next s sq).1 with present := p, not_present_for := n }, (next s sq).2) := by
  unfold next
  dsimp only
  have hip : insertPhase
        { s with present := p, not_present_for := n,
                 iteration_count := s.iteration_count + 1 } =
      ({ (insertPhase { s with iteration_count := s.iteration_count + 1 }).1 with
          present := p, not_present_for := n },
        (insertPhase { s with iteration_count := s.iteration_count + 1 }).2) :=
    insertPhase_presence { s with iteration_count := s.iteration_count + 1 } p n
  rw [hip]
  dsimp only
  cases h2 : (insertPhase { s with iteration_count := s.iteration_count + 1 }).2 with
  | none =>
    rw [recomputeStats_presence sq
      (insertPhase { s with iteration_count := s.iteration_count + 1 }).1 p n]
  | some ex => rfl

/-- Advancing the epoch never changes the presence flag. -/
lemma next_fst_present (s : BiometricProcessor) (sq : ℚ → ℚ) :
    (next s sq).1.present = s.present := by
  unfold next
  dsimp only
  cases h2 : (insertPhase { s with iteration_count := s.iteration_count + 1 }).2 with
  | none =>
    exact ((recomputeStats_frame sq _).2.2.2.2.2.2.1).trans
      ((insertPhase_frame { s with iteration_count := s.iteration_count + 1 }).2.2.2.2.2.2.2.2.1)
  | some e =>
    exact (insertPhase_frame { s with iteration_count := s.iteration_count + 1 }).2.2.2.2.2.2.2.2.1

/-- Advancing the epoch never changes the absence counter. -/
lemma next_fst_not_present_for (s : BiometricProcessor) (sq : ℚ → ℚ) :
    (next s sq).1.not_present_for = s.not_present_for := by
  unfold next
  dsimp only
  cases h2 : (insertPhase { s with iteration_count := s.iteration_count + 1 }).2 with
  | none =>
    exact ((recomputeStats_frame sq _).2.2.2.2.2.2.2.1).trans
      ((insertPhase_frame { s with iteration_count := s.iteration_count + 1 }).2.2.2.2.2.2.2.2.2.1)
  | some e =>
    exact (insertPhase_frame
      { s with iteration_count := s.iteration_count + 1 }).2.2.2.2.2.2.2.2.2.1

/-- C10: `calculate_vitals` neither reads nor (beyond carrying them along)
writes the presence fields: running it from a state with `present` and
`not_present_for` overwritten yields exactly the overwritten version of the
original run, with the same escaping exception, and the original run leaves
both presence fields untouched. -/
theorem calculate_vitals_presence_noninterference (sq : ℚ → ℚ)
    (s : BiometricProcessor) (e : ℤ) (r1 : DspResult) (r2 : Option DspResult)
    (p : Bool) (n : ℕ) :
    (({ s with present := p, not_present_for := n } :
        BiometricProcessor).calculate_vitals sq e r1 r2 =
      ({ (s.calculate_vitals sq e r1 r2).1 with present := p, not_present_for := n },
        (s.calculate_vitals sq e r1 r2).2)) ∧
    (s.calculate_vitals sq e r1 r2).1.present = s.present ∧
    (s.calculate_vitals sq e r1 r2).1.not_present_for = s.not_present_for := by
  refine ⟨?_, ?_, ?_⟩
  · show next (fuseStep { s with present := p, not_present_for := n, epoch := e }
        (BiometricProcessor.tryExtract
          { s with present := p, not_present_for := n, epoch := e } r1 e)
        (BiometricProcessor.tryExtractOpt
          { s with present := p, not_present_for := n, epoch := e } r2 e)) sq = _
    rw [show BiometricProcessor.tryExtract
          { s with present := p, not_present_for := n, epoch := e } r1 e =
        BiometricProcessor.tryExtract { s with epoch := e } r1 e from
      tryExtract_presence { s with epoch := e } p n r1 e]
    rw [show BiometricProcessor.tryExtractOpt
          { s with present := p, not_present_for := n, epoch := e } r2 e =
        BiometricProcessor.tryExtractOpt { s with epoch := e } r2 e from
      tryExtractOpt_presence { s with epoch := e } p n r2 e]
    rw [show fuseStep { s with present := p, not_present_for := n, epoch := e }
          (BiometricProcessor.tryExtract { s with epoch := e } r1 e)
          (BiometricProcessor.tryExtractOpt { s with epoch := e } r2 e) =
        { fuseStep { s with epoch := e }
            (BiometricProcessor.tryExtract { s with epoch := e } r1 e)
            (BiometricProcessor.tryExtractOpt { s with epoch := e } r2 e) with
          present := p, not_present_for := n } from
      fuseStep_presence { s with epoch := e } p n
        (BiometricProcessor.tryExtract { s with epoch := e } r1 e)
        (BiometricProcessor.tryExtractOpt { s with epoch := e } r2 e)]
    rw [next_presence (fuseStep { s with epoch := e }
        (BiometricProcessor.tryExtract { s with epoch := e } r1 e)
        (BiometricProcessor.tryExtractOpt { s with epoch := e } r2 e)) p n sq]
    rfl
  · show (next (fuseStep { s with epoch := e }
        (BiometricProcessor.tryExtract { s with epoch := e } r1 e)
        (BiometricProcessor.tryExtractOpt { s with epoch := e } r2 e)) sq).1.present
      = s.present
    exact (next_fst_present _ sq).trans (fuseStep_frame { s with epoch := e } _ _).1
  · show (next (fuseStep { s with epoch := e }
        (BiometricProcessor.tryExtract { s with epoch := e } r1 e)
        (BiometricProcessor.tryExtractOpt { s with epoch := e } r2 e)) sq).1.not_present_for
      = s.not_present_for
    exact (next_fst_not_present_for _ sq).trans
      (fuseStep_frame { s with epoch := e } _ _).2.1

/-- Folding low-amplitude signals through `detect_presence` only counts up
the absence counter while it stays below the tolerance. -/
lemma foldl_detect_presence_low (lows : List (List ℚ)) :
    ∀ s : BiometricProcessor,
      s.not_present_for + lows.length < s.no_presence_tolerance →
      (∀ l ∈ lows, npPtp l ≤ 200000) →
      List.foldl BiometricProcessor.detect_presence s lows =
        { s with not_present_for := s.not_present_for + lows.length } := by
  induction lows with
  | nil =>
    intro s _ _
    simp only [List.foldl_nil, List.length_nil, Nat.add_zero]
  | cons l rest ih =>
    intro s hlen hlow
    simp only [List.length_cons] at hlen
    rw [List.foldl_cons]
    have hl : npPtp l ≤ 200000 := hlow l (List.mem_cons_self l rest)
    have hstep : s.detect_presence l = { s with not_present_for := s.not_present_for + 1 } := by
      unfold BiometricProcessor.detect_presence
      rw [if_neg (not_lt.mpr hl)]
      dsimp only
      rw [if_neg (by omega : ¬ (s.not_present_for + 1 = s.no_presence_tolerance))]
    rw [hstep]
    rw [ih { s with not_present_for := s.not_present_for + 1 }
      (by dsimp only; omega)
      (fun l2 hl2 => hlow l2 (List.mem_cons_of_mem l hl2))]
    dsimp only
    rw [(by omega : s.not_present_for + 1 + rest.length = s.not_present_for + (rest.length + 1))]
    simp only [List.length_cons]

/-- C4: with the tolerance at its constructed value 10, a low-amplitude call
(peak-to-peak at most 200000) increments `not_present_for`; on the call
where the counter becomes exactly 10 the processor marks absence and resets
the history, bounds, moving average, std band and iteration counter while
leaving `combined_measurements` (and everything else) unchanged; a
high-amplitude call only sets `present := true` and zeroes the counter; and
nine low-amplitude calls followed by one high-amplitude call starting from a
zero counter never reset anything. -/
theorem detect_presence_spec (s : BiometricProcessor) (sig : List ℚ)
    (h10 : s.no_presence_tolerance = 10) :
    (npPtp sig ≤ 200000 →
      (s.detect_presence sig).not_present_for = s.not_present_for + 1 ∧
      (s.not_present_for + 1 = 10 →
        s.detect_presence sig =
          { s with present := false, not_present_for := 10, iteration_count := 0,
                   heart_rates := [], lower_bound := none, upper_bound := none,
                   hr_moving_avg := none, hr_std_2 := none }) ∧
      (s.not_present_for + 1 ≠ 10 →
        s.detect_presence sig = { s with not_present_for := s.not_present_for + 1 })) ∧
    (200000 < npPtp sig →
      s.detect_presence sig = { s with present := true, not_present_for := 0 }) ∧
    (s.not_present_for = 0 →
      ∀ lows : List (List ℚ), lows.length = 9 → (∀ l ∈ lows, npPtp l ≤ 200000) →
        ∀ hi : List ℚ, 200000 < npPtp hi →
          (List.foldl BiometricProcessor.detect_presence s lows).detect_presence hi =
            { s with present := true, not_present_for := 0 }) := by
  refine ⟨?_, ?_, ?_⟩
  · intro hlow
    unfold BiometricProcessor.detect_presence
    rw [if_neg (not_lt.mpr hlow)]
    dsimp only
    by_cases hc : s.not_present_for + 1 = 10
    · rw [if_pos (by omega : s.not_present_for + 1 = s.no_presence_tolerance)]
      refine ⟨rfl, fun _ => ?_, fun hne => absurd hc hne⟩
      rw [← hc]
      rfl
    · rw [if_neg (by omega : ¬ (s.not_present_for + 1 = s.no_presence_tolerance))]
      exact ⟨rfl, fun hcontra => absurd hcontra hc, fun _ => rfl⟩
  · intro hhigh
    unfold BiometricProcessor.detect_presence
    rw [if_pos hhigh]
  · intro h0 lows hlen hlowall hi hhigh
    rw [foldl_detect_presence_low lows s (by omega) hlowall]
    unfold BiometricProcessor.detect_presence
    rw [if_pos hhigh]

/-- Freshly constructed processor with the Python default parameters. -/
def procFresh : BiometricProcessor := mkBiometricProcessor "left" 1 none 60 25 false

/-- Witness for C4: one high-amplitude signal on a fresh processor marks
presence and zeroes the absence counter. -/
theorem detect_presence_spec_witness :
    procFresh.detect_presence [300000, 0] =
      { procFresh with present := true, not_present_for := 0 } :=
  ((detect_presence_spec procFresh [300000, 0] rfl).2.1) (by norm_num [npPtp])

/-- Placeholder measurement used only as the default of `List.getLastD` in
statements; every use is guarded by nonemptiness of the list. -/
def dummyMeasurement : Measurement :=
  { side := "", timestamp := 0, heart_rate := 0, hrv := 0, breathing_rate := 0 }

/-- Closed form of the insertion block outside debug mode: it fires exactly
when the iteration counter is a multiple of the insertion frequency and the
combined-measurement log is nonempty, and then hands the most recent
combined record — its heart rate overwritten by the rolling mean of the last
`rolling_average_size` history entries — to the sink. -/
lemma insertPhase_characterisation (v : BiometricProcessor) (hd : v.debug = false) :
    insertPhase v =
      (if v.iteration_count % v.insertion_frequency = 0 ∧ v.combined_measurements ≠ [] then
        ({ v with
            combined_measurements := v.combined_measurements.dropLast ++
              [{ v.combined_measurements.getLastD dummyMeasurement with
                  heart_rate := npMean (lastSlice v.rolling_average_size v.heart_rates) }],
            inserted := v.inserted ++
              [{ v.combined_measurements.getLastD dummyMeasurement with
                  heart_rate := npMean (lastSlice v.rolling_average_size v.heart_rates) }] },
          none)
      else (v, none)) := by
  unfold insertPhase
  by_cases h1 : v.iteration_count % v.insertion_frequency = 0
  · rw [if_pos h1]
    cases hL : v.combined_measurements.getLast? with
    | none =>
      have hnil : v.combined_measurements = [] := List.getLast?_eq_none_iff.mp hL
      rw [if_neg (by simp [hnil])]
    | some last =>
      have hne : v.combined_measurements ≠ [] := by
        intro hcontra
        rw [hcontra] at hL
        cases hL
      rw [if_pos ⟨h1, hne⟩]
      have hlast : v.combined_measurements.getLastD dummyMeasurement = last := by
        rw [List.getLastD_eq_getLast?, hL]
        rfl
      rw [hlast]
      simp only [hd, Bool.false_eq_true, if_false]
  · rw [if_neg h1, if_neg (by intro hc; exact h1 hc.1)]

/-- Closed form of `next` outside debug mode: no exception, the iteration
counter is incremented, and the sink and combined log change exactly as the
insertion block dictates (the statistics recomputation touches neither). -/
lemma next_characterisation (u : BiometricProcessor) (sq : ℚ → ℚ) (hd : u.debug = false) :
    (next u sq).2 = none ∧
    (next u sq).1.iteration_count = u.iteration_count + 1 ∧
    (next u sq).1.inserted =
      (if (u.iteration_count + 1) % u.insertion_frequency = 0 ∧
          u.combined_measurements ≠ [] then
        u.inserted ++ [{ u.combined_measurements.getLastD dummyMeasurement with
            heart_rate := npMean (lastSlice u.rolling_average_size u.heart_rates) }]
      else u.inserted) ∧
    (next u sq).1.combined_measurements =
      (if (u.iteration_count + 1) % u.insertion_frequency = 0 ∧
          u.combined_measurements ≠ [] then
        u.combined_measurements.dropLast ++
          [{ u.combined_measurements.getLastD dummyMeasurement with
              heart_rate := npMean (lastSlice u.rolling_average_size u.heart_rates) }]
      else u.combined_measurements) := by
  unfold next
  dsimp only
  rw [insertPhase_characterisation { u with iteration_count := u.iteration_count + 1 } hd]
  dsimp only
  by_cases hc : (u.iteration_count + 1) % u.insertion_frequency = 0 ∧
      u.combined_measurements ≠ []
  · simp only [if_pos hc]
    exact ⟨trivial, (recomputeStats_frame sq _).2.2.2.1,
      (recomputeStats_frame sq _).2.2.1, (recomputeStats_frame sq _).2.1⟩
  · simp only [if_neg hc]
    exact ⟨trivial, (recomputeStats_frame sq _).2.2.2.1,
      (recomputeStats_frame sq _).2.2.1, (recomputeStats_frame sq _).2.1⟩

/-- C3 (amended): outside debug mode and with a positive insertion
frequency, a `calculate_vitals` call raises nothing, increments the
iteration counter, and invokes the sink exactly when the incremented counter
is a multiple of `insertion_frequency` AND the combined-measurement log is
nonempty — i.e. when at least one measurement was ever produced and is still
retained, not necessarily inside the current window; when it fires, the
persisted record is the most recent combined measurement with its heart rate
overwritten by the mean of the last `rolling_average_size` history
entries. -/
theorem insertion_exact_characterisation (sq : ℚ → ℚ) (s : BiometricProcessor)
    (e : ℤ) (r1 : DspResult) (r2 : Option DspResult) (mid : BiometricProcessor)
    (hd : s.debug = false) (_hf : 0 < s.insertion_frequency)
    (hmid : mid = fuseStep { s with epoch := e }
      (BiometricProcessor.tryExtract { s with epoch := e } r1 e)
      (BiometricProcessor.tryExtractOpt { s with epoch := e } r2 e)) :
    (s.calculate_vitals sq e r1 r2 = next mid sq) ∧
    (next mid sq).2 = none ∧
    (next mid sq).1.iteration_count = s.iteration_count + 1 ∧
    mid.inserted = s.inserted ∧
    (next mid sq).1.inserted =
      (if (s.iteration_count + 1) % s.insertion_frequency = 0 ∧
          mid.combined_measurements ≠ [] then
        s.inserted ++ [{ mid.combined_measurements.getLastD dummyMeasurement with
            heart_rate := npMean (lastSlice s.rolling_average_size mid.heart_rates) }]
      else s.inserted) ∧
    (next mid sq).1.combined_measurements =
      (if (s.iteration_count + 1) % s.insertion_frequency = 0 ∧
          mid.combined_measurements ≠ [] then
        mid.combined_measurements.dropLast ++
          [{ mid.combined_measurements.getLastD dummyMeasurement with
              heart_rate := npMean (lastSlice s.rolling_average_size mid.heart_rates) }]
      else mid.combined_measurements) := by
  subst hmid
  have F := fuseStep_frame { s with epoch := e }
    (BiometricProcessor.tryExtract { s with epoch := e } r1 e)
    (BiometricProcessor.tryExtractOpt { s with epoch := e } r2 e)
  have hd2 : (fuseStep { s with epoch := e }
      (BiometricProcessor.tryExtract { s with epoch := e } r1 e)
      (BiometricProcessor.tryExtractOpt { s with epoch := e } r2 e)).debug = false :=
    F.2.2.2.1.trans hd
  obtain ⟨H1, H2, H3, H4⟩ := next_characterisation (fuseStep { s with epoch := e }
    (BiometricProcessor.tryExtract { s with epoch := e } r1 e)
    (BiometricProcessor.tryExtractOpt { s with epoch := e } r2 e)) sq hd2
  simp only [F.2.2.1, F.2.2.2.2.2.1, F.2.2.2.2.2.2.1,
    F.2.2.2.2.2.2.2.2.2.2.2.2.2.1] at H2 H3 H4
  exact ⟨rfl, H1, H2, F.2.2.2.2.2.2.2.2.2.2.2.2.2.1, H3, H4⟩

/-- A raw DSP output of 60 BPM, not NaN. -/
def rawSixty : RawMeasurement :=
  { bpm_nan := false, bpm := 60, sdnn := 0, breathingrate := 0 }

/-- Processor constructed with `insertion_frequency = 1` (a valid
constructor argument), so the insertion condition is checked every epoch. -/
def procEveryEpoch : BiometricProcessor := mkBiometricProcessor "left" 1 none 1 25 false

/-- State after one epoch that produced a valid 60 BPM measurement. -/
def stateAfterOne : BiometricProcessor :=
  (procEveryEpoch.calculate_vitals sqZero 0 (DspResult.ok rawSixty) none).1

/-- State after a further epoch in which the DSP stage raised, so no
measurement at all was produced in that insertion window. -/
def stateAfterTwo : BiometricProcessor :=
  (stateAfterOne.calculate_vitals sqZero 1 DspResult.exn none).1

/-- Counterexample to C3 as stated: the second epoch is its own insertion
window (frequency 1) and produces no measurement — the combined log and the
history are unchanged — yet `insert_vitals` is invoked a second time,
because the code only requires the log of ever-produced measurements to be
nonempty. -/
theorem insertion_fires_without_window_measurement :
    stateAfterTwo.combined_measurements = stateAfterOne.combined_measurements ∧
    stateAfterTwo.heart_rates = stateAfterOne.heart_rates ∧
    stateAfterOne.inserted.length = 1 ∧
    stateAfterTwo.inserted.length = 2 :=
  ⟨rfl, rfl, rfl, rfl⟩

/-- Fusion-stage state of the C3 witness run. -/
def midIns : BiometricProcessor :=
  fuseStep { procEveryEpoch with epoch := 0 }
    (BiometricProcessor.tryExtract { procEveryEpoch with epoch := 0 } (DspResult.ok rawSixty) 0)
    (BiometricProcessor.tryExtractOpt { procEveryEpoch with epoch := 0 } none 0)

/-- Witness for the amended C3 on a concrete first epoch with a valid
measurement and insertion frequency 1. -/
theorem insertion_exact_characterisation_witness :
    (procEveryEpoch.calculate_vitals sqZero 0 (DspResult.ok rawSixty) none =
      next midIns sqZero) ∧
    (next midIns sqZero).2 = none ∧
    (next midIns sqZero).1.iteration_count = procEveryEpoch.iteration_count + 1 ∧
    midIns.inserted = procEveryEpoch.inserted ∧
    (next midIns sqZero).1.inserted =
      (if (procEveryEpoch.iteration_count + 1) % procEveryEpoch.insertion_frequency = 0 ∧
          midIns.combined_measurements ≠ [] then
        procEveryEpoch.inserted ++
          [{ midIns.combined_measurements.getLastD dummyMeasurement with
              heart_rate :=
                npMean (lastSlice procEveryEpoch.rolling_average_size midIns.heart_rates) }]
      else procEveryEpoch.inserted) ∧
    (next midIns sqZero).1.combined_measurements =
      (if (procEveryEpoch.iteration_count + 1) % procEveryEpoch.insertion_frequency = 0 ∧
          midIns.combined_measurements ≠ [] then
        midIns.combined_measurements.dropLast ++
          [{ midIns.combined_measurements.getLastD dummyMeasurement with
              heart_rate :=
                npMean (lastSlice procEveryEpoch.rolling_average_size midIns.heart_rates) }]
      else midIns.combined_measurements) :=
  insertion_exact_characterisation sqZero procEveryEpoch 0 (DspResult.ok rawSixty) none
    midIns rfl (by decide) rfl

/-- Processor constructed in debug mode with `insertion_frequency = 1`. -/
def procDebug : BiometricProcessor := mkBiometricProcessor "left" 1 none 1 25 true

/-- C9 (code bug): in debug mode, on the very first epoch on which the
insertion condition fires, `calculate_vitals` lets an `AttributeError`
escape (line 262 reads `datetime.utcfromtimestamp`, which does not exist on
the module imported by `import datetime`), and NO enriched trace record is
appended to `debug_measurements` — nor is anything persisted. -/
theorem debug_insertion_raises_attribute_error :
    (procDebug.calculate_vitals sqZero 0 (DspResult.ok rawSixty) none).2 =
      some PyExn.attributeError ∧
    (procDebug.calculate_vitals sqZero 0 (DspResult.ok rawSixty) none).1.debug_measurements
      = [] ∧
    (procDebug.calculate_vitals sqZero 0 (DspResult.ok rawSixty) none).1.inserted = [] := by
  decide

/-- Length of a bounded-deque append: one more element, capped at the
capacity. -/
lemma dequeAppend_length {α : Type} (m : ℕ) (xs : List α) (x : α) :
    (dequeAppend m xs x).length = min (xs.length + 1) m := by
  unfold dequeAppend
  dsimp only
  rw [List.length_drop, List.length_append]
  simp only [List.length_cons, List.length_nil]
  omega

/-- Advancing the epoch preserves the configuration fields. -/
lemma next_fst_config (u : BiometricProcessor) (sq : ℚ → ℚ) :
    (next u sq).1.moving_avg_size = u.moving_avg_size ∧
    (next u sq).1.debug = u.debug ∧
    (next u sq).1.hr_percentile = u.hr_percentile ∧
    (next u sq).1.hr_std_range = u.hr_std_range := by
  unfold next
  dsimp only
  cases h2 : (insertPhase { u with iteration_count := u.iteration_count + 1 }).2 with
  | none =>
    obtain ⟨a1, a2, a3, a4, a5, a6, a7, a8, a9, a10, a11, a12, a13, a14, a15, a16⟩ :=
      recomputeStats_frame sq ((insertPhase { u with iteration_count := u.iteration_count + 1 }).1)
    obtain ⟨b1, b2, b3, b4, b5, b6, b7, b8, b9, b10, b11, b12, b13, b14, b15, b16, b17, b18⟩ :=
      insertPhase_frame { u with iteration_count := u.iteration_count + 1 }
    exact ⟨a6.trans b7, a5.trans b6, a12.trans b14, a11.trans b13⟩
  | some ex =>
    obtain ⟨b1, b2, b3, b4, b5, b6, b7, b8, b9, b10, b11, b12, b13, b14, b15, b16, b17, b18⟩ :=
      insertPhase_frame { u with iteration_count := u.iteration_count + 1 }
    exact ⟨b7, b6, b14, b13⟩

/-- Outside debug mode, once the history is at least as long as the window,
`next` recomputes the moving average, the clamped std band and the widened
percentile bounds from the current history. -/
lemma next_stats_full (u : BiometricProcessor) (sq : ℚ → ℚ) (hd : u.debug = false)
    (hf : u.moving_avg_size ≤ u.heart_rates.length) :
    (next u sq).1.hr_moving_avg = some (npMean u.heart_rates) ∧
    (next u sq).1.hr_std_2 =
      some (clampToRange u.hr_std_range (sq (npVariance u.heart_rates) * 2)) ∧
    ((next u sq).1.lower_bound, (next u sq).1.upper_bound) =
      (if npPercentile u.heart_rates u.hr_percentile.2
          - npPercentile u.heart_rates u.hr_percentile.1 < 25 then
        (some (npMean u.heart_rates - 25/2), some (npMean u.heart_rates + 25/2))
      else (some (npPercentile u.heart_rates u.hr_percentile.1),
            some (npPercentile u.heart_rates u.hr_percentile.2))) := by
  unfold next
  dsimp only
  have hnone : (insertPhase { u with iteration_count := u.iteration_count + 1 }).2 = none :=
    insertPhase_snd_of_not_debug _ hd
  rw [hnone]
  dsimp only
  obtain ⟨b1, b2, b3, b4, b5, b6, b7, b8, b9, b10, b11, b12, b13, b14, b15, b16, b17, b18⟩ :=
    insertPhase_frame { u with iteration_count := u.iteration_count + 1 }
  have hw : (insertPhase { u with iteration_count := u.iteration_count + 1 }).1.moving_avg_size
      ≤ (insertPhase { u with iteration_count := u.iteration_count + 1 }).1.heart_rates.length := by
    rw [b7, b1]
    exact hf
  obtain ⟨c1, c2, c3⟩ := recomputeStats_full sq _ hw
  rw [b1] at c1 c2 c3
  rw [b13] at c2
  rw [b14] at c3
  exact ⟨c1, c2, c3⟩

/-- Outside debug mode, while the history is shorter than the window, `next`
leaves the four running statistics untouched. -/
lemma next_stats_not_full (u : BiometricProcessor) (sq : ℚ → ℚ) (hd : u.debug = false)
    (hnf : ¬ u.moving_avg_size ≤ u.heart_rates.length) :
    (next u sq).1.hr_moving_avg = u.hr_moving_avg ∧
    (next u sq).1.lower_bound = u.lower_bound ∧
    (next u sq).1.upper_bound = u.upper_bound ∧
    (next u sq).1.hr_std_2 = u.hr_std_2 := by
  unfold next
  dsimp only
  have hnone : (insertPhase { u with iteration_count := u.iteration_count + 1 }).2 = none :=
    insertPhase_snd_of_not_debug _ hd
  rw [hnone]
  dsimp only
  obtain ⟨b1, b2, b3, b4, b5, b6, b7, b8, b9, b10, b11, b12, b13, b14, b15, b16, b17, b18⟩ :=
    insertPhase_frame { u with iteration_count := u.iteration_count + 1 }
  have hw : ¬ ((insertPhase { u with iteration_count := u.iteration_count + 1 }).1.moving_avg_size
      ≤ (insertPhase { u with iteration_count := u.iteration_count + 1 }).1.heart_rates.length) := by
    rw [b7, b1]
    exact hnf
  rw [recomputeStats_not_full sq _ hw]
  exact ⟨b2, b3, b4, b5⟩

/-- Invariant of a non-debug processor: the history never exceeds the
window, the four running statistics are set exactly when the history is
full, and when set they are the values recomputed from the current
history. -/
def StatsInv (sq : ℚ → ℚ) (s : BiometricProcessor) : Prop :=
  s.debug = false ∧
  0 < s.moving_avg_size ∧
  s.heart_rates.length ≤ s.moving_avg_size ∧
  (s.hr_moving_avg.isSome ↔ s.heart_rates.length = s.moving_avg_size) ∧
  (s.lower_bound.isSome ↔ s.heart_rates.length = s.moving_avg_size) ∧
  (s.upper_bound.isSome ↔ s.heart_rates.length = s.moving_avg_size) ∧
  (s.hr_std_2.isSome ↔ s.heart_rates.length = s.moving_avg_size) ∧
  (s.heart_rates.length = s.moving_avg_size →
    s.hr_moving_avg = some (npMean s.heart_rates) ∧
    s.hr_std_2 = some (clampToRange s.hr_std_range (sq (npVariance s.heart_rates) * 2)) ∧
    ((s.lower_bound, s.upper_bound) =
      if npPercentile s.heart_rates s.hr_percentile.2
          - npPercentile s.heart_rates s.hr_percentile.1 < 25 then
        (some (npMean s.heart_rates - 25/2), some (npMean s.heart_rates + 25/2))
      else (some (npPercentile s.heart_rates s.hr_percentile.1),
            some (npPercentile s.heart_rates s.hr_percentile.2))))

/-- States reachable from a given initial state by any interleaving of
`detect_presence` and `calculate_vitals` calls (with a fixed square-root
black box). -/
inductive Reachable (sq : ℚ → ℚ) (s0 : BiometricProcessor) : BiometricProcessor → Prop where
  | refl : Reachable sq s0 s0
  | presence (t : BiometricProcessor) (sig : List ℚ) :
      Reachable sq s0 t → Reachable sq s0 (t.detect_presence sig)
  | vitals (t : BiometricProcessor) (e : ℤ) (r1 : DspResult) (r2 : Option DspResult) :
      Reachable sq s0 t → Reachable sq s0 (t.calculate_vitals sq e r1 r2).1

/-- A freshly constructed non-debug processor satisfies the invariant. -/
lemma statsInv_mk (sq : ℚ → ℚ) (side : String) (sc : ℕ) (rp : Option RuntimeParams)
    (f k : ℕ) (hsz : 0 < (mkBiometricProcessor side sc rp f k false).moving_avg_size) :
    StatsInv sq (mkBiometricProcessor side sc rp f k false) := by
  have hne : (mkBiometricProcessor side sc rp f k false).moving_avg_size ≠ 0 := by omega
  refine ⟨rfl, hsz, by simp [mkBiometricProcessor], ?_, ?_, ?_, ?_, ?_⟩
  · simp only [mkBiometricProcessor]
    simp only [Option.isSome_none, List.length_nil]
    constructor
    · intro h
      cases h
    · intro h
      exact absurd h.symm (by simpa [mkBiometricProcessor] using hne)
  · simp only [mkBiometricProcessor]
    simp only [Option.isSome_none, List.length_nil]
    constructor
    · intro h
      cases h
    · intro h
      exact absurd h.symm (by simpa [mkBiometricProcessor] using hne)
  · simp only [mkBiometricProcessor]
    simp only [Option.isSome_none, List.length_nil]
    constructor
    · intro h
      cases h
    · intro h
      exact absurd h.symm (by simpa [mkBiometricProcessor] using hne)
  · simp only [mkBiometricProcessor]
    simp only [Option.isSome_none, List.length_nil]
    constructor
    · intro h
      cases h
    · intro h
      exact absurd h.symm (by simpa [mkBiometricProcessor] using hne)
  · intro h
    exact absurd h.symm (by simpa [mkBiometricProcessor] using hne)

/-- `detect_presence` preserves the invariant: either it only touches the
presence fields, or it wipes the history and unsets the statistics
together. -/
lemma statsInv_detect (sq : ℚ → ℚ) (s : BiometricProcessor) (sig : List ℚ)
    (hI : StatsInv sq s) : StatsInv sq (s.detect_presence sig) := by
  obtain ⟨hdbg, hsz, hlen, hiff1, hiff2, hiff3, hiff4, hform⟩ := hI
  unfold BiometricProcessor.detect_presence
  by_cases hc : 200000 < npPtp sig
  · rw [if_pos hc]
    exact ⟨hdbg, hsz, hlen, hiff1, hiff2, hiff3, hiff4, hform⟩
  · rw [if_neg hc]
    dsimp only
    by_cases hc2 : s.not_present_for + 1 = s.no_presence_tolerance
    · rw [if_pos hc2]
      have hne : s.moving_avg_size ≠ 0 := by omega
      unfold BiometricProcessor.reset BiometricProcessor.init_tracking
      dsimp only
      refine ⟨hdbg, hsz, by simp, ?_, ?_, ?_, ?_,
        fun h => absurd h (by simpa using hne.symm)⟩
      all_goals
        simp only [Option.isSome_none, List.length_nil, Bool.false_eq_true, false_iff]
        omega
    · rw [if_neg hc2]
      exact ⟨hdbg, hsz, hlen, hiff1, hiff2, hiff3, hiff4, hform⟩

/-- `calculate_vitals` preserves the invariant: the history append respects
the capacity, and `next` recomputes the statistics exactly when the history
is full. -/
lemma statsInv_calc (sq : ℚ → ℚ) (s : BiometricProcessor) (e : ℤ) (r1 : DspResult)
    (r2 : Option DspResult) (hI : StatsInv sq s) :
    StatsInv sq (s.calculate_vitals sq e r1 r2).1 := by
  obtain ⟨hdbg, hsz, hlen, hiff1, hiff2, hiff3, hiff4, hform⟩ := hI
  show StatsInv sq (next (fuseStep { s with epoch := e }
      (BiometricProcessor.tryExtract { s with epoch := e } r1 e)
      (BiometricProcessor.tryExtractOpt { s with epoch := e } r2 e)) sq).1
  generalize BiometricProcessor.tryExtract { s with epoch := e } r1 e = m1
  generalize BiometricProcessor.tryExtractOpt { s with epoch := e } r2 e = m2
  obtain ⟨f1, f2, f3, f4, f5, f6, f7, f8, f9, f10, f11, f12, f13, f14, f15, f16, f17, f18⟩ :=
    fuseStep_frame { s with epoch := e } m1 m2
  have hud : (fuseStep { s with epoch := e } m1 m2).debug = false := f4.trans hdbg
  have husize : (fuseStep { s with epoch := e } m1 m2).moving_avg_size = s.moving_avg_size := f5
  have hlen_cases : (fuseStep { s with epoch := e } m1 m2).heart_rates.length
        = s.heart_rates.length ∨
      (fuseStep { s with epoch := e } m1 m2).heart_rates.length =
        min (s.heart_rates.length + 1) s.moving_avg_size := by
    rcases fuseStep_shape { s with epoch := e } m1 m2 with hid | ⟨c, m, hm, heq⟩
    · left
      rw [hid]
    · right
      rw [heq]
      dsimp only
      rw [dequeAppend_length]
  have hulen_le : (fuseStep { s with epoch := e } m1 m2).heart_rates.length
      ≤ s.moving_avg_size := by
    rcases hlen_cases with h | h
    · omega
    · omega
  obtain ⟨g1, g2, g3, g4⟩ := next_fst_config (fuseStep { s with epoch := e } m1 m2) sq
  have ghr := next_fst_heart_rates (fuseStep { s with epoch := e } m1 m2) sq
  by_cases hfull : s.moving_avg_size ≤ (fuseStep { s with epoch := e } m1 m2).heart_rates.length
  case pos =>
    have hexact : (fuseStep { s with epoch := e } m1 m2).heart_rates.length
        = s.moving_avg_size := le_antisymm hulen_le hfull
    have hfull2 : (fuseStep { s with epoch := e } m1 m2).moving_avg_size ≤
        (fuseStep { s with epoch := e } m1 m2).heart_rates.length := by
      rw [husize]
      exact hfull
    obtain ⟨c1, c2, c3⟩ := next_stats_full (fuseStep { s with epoch := e } m1 m2) sq hud hfull2
    have hpostlen : (next (fuseStep { s with epoch := e } m1 m2) sq).1.heart_rates.length =
        (next (fuseStep { s with epoch := e } m1 m2) sq).1.moving_avg_size := by
      rw [ghr, g1, husize, hexact]
    have hlbub : (next (fuseStep { s with epoch := e } m1 m2) sq).1.lower_bound.isSome = true ∧
        (next (fuseStep { s with epoch := e } m1 m2) sq).1.upper_bound.isSome = true := by
      by_cases hcnd : npPercentile (fuseStep { s with epoch := e } m1 m2).heart_rates
            (fuseStep { s with epoch := e } m1 m2).hr_percentile.2
          - npPercentile (fuseStep { s with epoch := e } m1 m2).heart_rates
            (fuseStep { s with epoch := e } m1 m2).hr_percentile.1 < 25
      · rw [if_pos hcnd] at c3
        injection c3 with hA hB
        exact ⟨by rw [hA]; rfl, by rw [hB]; rfl⟩
      · rw [if_neg hcnd] at c3
        injection c3 with hA hB
        exact ⟨by rw [hA]; rfl, by rw [hB]; rfl⟩
    refine ⟨g2.trans hud, ?_, ?_, ?_, ?_, ?_, ?_, ?_⟩
    · rw [g1, husize]
      exact hsz
    · rw [ghr, g1, husize]
      exact hulen_le
    · rw [c1]
      simp only [Option.isSome_some, true_iff]
      exact hpostlen
    · exact ⟨fun _ => hpostlen, fun _ => hlbub.1⟩
    · exact ⟨fun _ => hpostlen, fun _ => hlbub.2⟩
    · rw [c2]
      simp only [Option.isSome_some, true_iff]
      exact hpostlen
    · intro _
      refine ⟨?_, ?_, ?_⟩
      · rw [ghr]
        exact c1
      · rw [ghr, g4]
        exact c2
      · rw [ghr, g3]
        exact c3
  case neg =>
    have hnf2 : ¬ ((fuseStep { s with epoch := e } m1 m2).moving_avg_size ≤
        (fuseStep { s with epoch := e } m1 m2).heart_rates.length) := by
      rw [husize]
      exact hfull
    obtain ⟨d1, d2, d3, d4⟩ := next_stats_not_full (fuseStep { s with epoch := e } m1 m2)
      sq hud hnf2
    have hune : (fuseStep { s with epoch := e } m1 m2).heart_rates.length
        ≠ s.moving_avg_size := by omega
    have hsne : s.heart_rates.length ≠ s.moving_avg_size := by
      intro hcontra
      rcases hlen_cases with h | h
      · exact hune (h.trans hcontra)
      · apply hune
        rw [h, hcontra]
        omega
    have havg : (next (fuseStep { s with epoch := e } m1 m2) sq).1.hr_moving_avg
        = s.hr_moving_avg := d1.trans f12
    have hlb2 : (next (fuseStep { s with epoch := e } m1 m2) sq).1.lower_bound
        = s.lower_bound := d2.trans f10
    have hub2 : (next (fuseStep { s with epoch := e } m1 m2) sq).1.upper_bound
        = s.upper_bound := d3.trans f11
    have hstd2 : (next (fuseStep { s with epoch := e } m1 m2) sq).1.hr_std_2
        = s.hr_std_2 := d4.trans f13
    have hpostlen_ne : (next (fuseStep { s with epoch := e } m1 m2) sq).1.heart_rates.length
        ≠ (next (fuseStep { s with epoch := e } m1 m2) sq).1.moving_avg_size := by
      rw [ghr, g1, husize]
      exact hune
    refine ⟨g2.trans hud, ?_, ?_, ?_, ?_, ?_, ?_, ?_⟩
    · rw [g1, husize]
      exact hsz
    · rw [ghr, g1, husize]
      exact hulen_le
    · rw [havg]
      exact ⟨fun hs => absurd (hiff1.mp hs) hsne, fun hp => absurd hp hpostlen_ne⟩
    · rw [hlb2]
      exact ⟨fun hs => absurd (hiff2.mp hs) hsne, fun hp => absurd hp hpostlen_ne⟩
    · rw [hub2]
      exact ⟨fun hs => absurd (hiff3.mp hs) hsne, fun hp => absurd hp hpostlen_ne⟩
    · rw [hstd2]
      exact ⟨fun hs => absurd (hiff4.mp hs) hsne, fun hp => absurd hp hpostlen_ne⟩
    · intro hp
      exact absurd hp hpostlen_ne

/-- C2 (amended): on every state reachable from a processor constructed
with debug disabled (and a positive history window), the history never
exceeds `moving_avg_size`; `hr_moving_avg`, `lower_bound`, `upper_bound`
and `hr_std_2` are set exactly when the history is full; and when set they
equal the mean, the 15th/80th-percentile bounds widened symmetrically
around the mean to a minimum width of 25 when narrower, and twice the
standard deviation clamped into the configured range — all recomputed from
the current history on every call. -/
theorem running_stats_iff_history_full (sq : ℚ → ℚ) (side : String) (sc : ℕ)
    (rp : Option RuntimeParams) (f k : ℕ) (s : BiometricProcessor)
    (hreach : Reachable sq (mkBiometricProcessor side sc rp f k false) s)
    (hsz : 0 < (mkBiometricProcessor side sc rp f k false).moving_avg_size) :
    s.heart_rates.length ≤ s.moving_avg_size ∧
    (s.hr_moving_avg.isSome ↔ s.heart_rates.length = s.moving_avg_size) ∧
    (s.lower_bound.isSome ↔ s.heart_rates.length = s.moving_avg_size) ∧
    (s.upper_bound.isSome ↔ s.heart_rates.length = s.moving_avg_size) ∧
    (s.hr_std_2.isSome ↔ s.heart_rates.length = s.moving_avg_size) ∧
    (s.heart_rates.length = s.moving_avg_size →
      s.hr_moving_avg = some (npMean s.heart_rates) ∧
      s.hr_std_2 = some (clampToRange s.hr_std_range (sq (npVariance s.heart_rates) * 2)) ∧
      ((s.lower_bound, s.upper_bound) =
        if npPercentile s.heart_rates s.hr_percentile.2
            - npPercentile s.heart_rates s.hr_percentile.1 < 25 then
          (some (npMean s.heart_rates - 25/2), some (npMean s.heart_rates + 25/2))
        else (some (npPercentile s.heart_rates s.hr_percentile.1),
              some (npPercentile s.heart_rates s.hr_percentile.2)))) := by
  have hInv : StatsInv sq s := by
    induction hreach with
    | refl => exact statsInv_mk sq side sc rp f k hsz
    | presence t sig ht ih => exact statsInv_detect sq t sig ih
    | vitals t e r1 r2 ht ih => exact statsInv_calc sq t e r1 r2 ih
  obtain ⟨-, -, h3, h4, h5, h6, h7, h8⟩ := hInv
  exact ⟨h3, h4, h5, h6, h7, h8⟩

/-- Witness for the amended C2 at the freshly constructed default
processor, reachable by the empty call sequence. -/
theorem running_stats_iff_history_full_witness :
    procFresh.heart_rates.length ≤ procFresh.moving_avg_size ∧
    (procFresh.hr_moving_avg.isSome ↔
      procFresh.heart_rates.length = procFresh.moving_avg_size) ∧
    (procFresh.lower_bound.isSome ↔
      procFresh.heart_rates.length = procFresh.moving_avg_size) ∧
    (procFresh.upper_bound.isSome ↔
      procFresh.heart_rates.length = procFresh.moving_avg_size) ∧
    (procFresh.hr_std_2.isSome ↔
      procFresh.heart_rates.length = procFresh.moving_avg_size) ∧
    (procFresh.heart_rates.length = procFresh.moving_avg_size →
      procFresh.hr_moving_avg = some (npMean procFresh.heart_rates) ∧
      procFresh.hr_std_2 = some (clampToRange procFresh.hr_std_range
        (sqZero (npVariance procFresh.heart_rates) * 2)) ∧
      ((procFresh.lower_bound, procFresh.upper_bound) =
        if npPercentile procFresh.heart_rates procFresh.hr_percentile.2
            - npPercentile procFresh.heart_rates procFresh.hr_percentile.1 < 25 then
          (some (npMean procFresh.heart_rates - 25/2),
           some (npMean procFresh.heart_rates + 25/2))
        else (some (npPercentile procFresh.heart_rates procFresh.hr_percentile.1),
              some (npPercentile procFresh.heart_rates procFresh.hr_percentile.2)))) :=
  running_stats_iff_history_full sqZero "left" 1 none 60 25 procFresh
    Reachable.refl (by decide)

/-- Runtime parameters with a history window of a single epoch. -/
def rpTiny : RuntimeParams := { defaultRuntimeParams with moving_avg_size := 1 }

/-- Debug-mode processor whose history fills after one epoch and whose
insertion condition fires every epoch. -/
def procDebugTiny : BiometricProcessor :=
  mkBiometricProcessor "left" 1 (some rpTiny) 1 25 true

/-- State of the debug-mode processor after one call with a valid 60 BPM
measurement: the debug insertion branch raises before the statistics
recomputation runs. -/
def stateDebugTiny : BiometricProcessor :=
  (procDebugTiny.calculate_vitals sqZero 0 (DspResult.ok rawSixty) none).1

/-- Counterexample to C2 as stated: after this `calculate_vitals` call the
history is full (`length = moving_avg_size = 1`) yet all four running
statistics are still unset, because the debug branch's `AttributeError`
(line 262) aborted the call before the recomputation at lines 277-291. -/
theorem debug_crash_leaves_stats_unset :
    stateDebugTiny.heart_rates.length = stateDebugTiny.moving_avg_size ∧
    stateDebugTiny.hr_moving_avg = none ∧
    stateDebugTiny.lower_bound = none ∧
    stateDebugTiny.upper_bound = none ∧
    stateDebugTiny.hr_std_2 = none := by
  decide
